import Mathlib

/-!
Shallow embedding of the todo/group domain model of `src/scripts/newtab.js`
(classes `TodoGroup`, `TodoItem`, `TodoManager`).

Modelling conventions:
* JavaScript values that can flow into the entity constructors are modelled by
  the inductive `JSVal` (strings, integer numbers, booleans, null, undefined).
  Floating-point numbers are out of scope; the `Number()` coercion is modelled
  on the integer fragment (`JSVal.toNumber`, with `none` standing for NaN).
* `new Date().toISOString()` timestamps are modelled by an explicit `now : Nat`
  argument threaded into every operation that stamps a time.
* The random id generators (`Date.now().toString(36) + Math.random()...`) are
  modelled by explicit `seed` arguments; the `TodoGroup` generator keeps its
  constant prefix, so generated ids are provably non-empty, as in the source.
* Thrown `TodoValidationError` / `StorageError` exceptions are modelled by
  `JSError`; manager operations return the (possibly unchanged) manager state
  together with the result, so that "throws before mutating" is visible.
* `chrome.storage` writes are modelled by a `Persist` event list returned by
  each mutating operation (`saveGroups` / `saveTodos` calls in the source).
-/

namespace ChromeTodo

/-- Fragment of JavaScript values that reach the entity constructors. -/
inductive JSVal where
  | vstr (s : String)
  | vnum (n : Int)
  | vbool (b : Bool)
  | vnull
  | vundefined
deriving DecidableEq, Repr

/-- JavaScript truthiness on the `JSVal` fragment. -/
def JSVal.truthy : JSVal → Bool
  | .vstr s => s ≠ ""
  | .vnum n => n ≠ 0
  | .vbool b => b
  | .vnull => false
  | .vundefined => false

/-- `String.prototype.trim`: drop whitespace from both ends. -/
def jsTrim (s : String) : String :=
  ⟨((s.data.dropWhile Char.isWhitespace).reverse.dropWhile Char.isWhitespace).reverse⟩

/-- `Number()` on a string (integer fragment): empty/whitespace-only gives 0,
a decimal integer gives its value, anything else gives NaN (`none`). -/
def jsStrToNumber (s : String) : Option Int :=
  let t := jsTrim s
  if t = "" then some 0 else t.toInt?

/-- `Number()` coercion; `none` models NaN. -/
def JSVal.toNumber : JSVal → Option Int
  | .vstr s => jsStrToNumber s
  | .vnum n => some n
  | .vbool b => some (if b then 1 else 0)
  | .vnull => some 0
  | .vundefined => none

/-- `Number(x) || 0` as used for the `position` field: NaN falls back to 0
(and 0 itself is falsy, so `getD 0` is exact). -/
def jsNumberOr0 (v : JSVal) : Int :=
  (JSVal.toNumber v).getD 0

/-- `x || ''` as applied to the `description` argument. -/
def jsDescOr (v : JSVal) : JSVal :=
  if v.truthy then v else .vstr ""

/-- The two thrown error classes of the source that the manager surfaces:
`TodoValidationError` and `StorageError`. -/
inductive JSError where
  | validation (msg : String)
  | storage (msg : String)
deriving DecidableEq, Repr

/-- Persistence write events (`saveGroups` / `saveTodos`). -/
inductive Persist where
  | groups
  | todos
deriving DecidableEq, Repr

/-- The manager filter field values 'all' / 'active' / 'completed'. -/
inductive FilterMode where
  | all
  | active
  | completed
deriving DecidableEq, Repr

/-- `TodoGroup` fields (timestamps as abstract ticks). -/
structure TodoGroup where
  id : String
  name : String
  position : Int
  createdAt : Nat
  updatedAt : Nat
deriving DecidableEq, Repr

/-- `TodoGroup.prototype.generateId`: `'group_' + Date.now().toString(36) + random`.
The constant prefix is kept; time and entropy are explicit arguments. -/
def TodoGroup.generateId (now : Nat) (seed : String) : String :=
  "group_" ++ Nat.repr now ++ seed

/-- `TodoGroup.prototype.validateName`: the thrown error, or `none` when valid.
The `!name || typeof name !== 'string'` guard collapses every non-string and
the empty string into the first error message, as in the source. -/
def TodoGroup.validateName (name : JSVal) : Option JSError :=
  match name with
  | .vstr s =>
    if s = "" then some (.validation "Group name must be a non-empty string")
    else if jsTrim s = "" then
      some (.validation "Group name cannot be empty or whitespace only")
    else if 50 < (jsTrim s).length then
      some (.validation "Group name cannot exceed 50 characters")
    else none
  | _ => some (.validation "Group name must be a non-empty string")

/-- `id || this.generateId()`: a present non-empty string id is kept, anything
falsy (null or the empty string) is replaced by a generated id. -/
def jsIdOr (idArg : Option String) (gen : String) : String :=
  match idArg with
  | some s => if s = "" then gen else s
  | none => gen

/-- The `TodoGroup` constructor. `position` has default 0 in the source; a
caller omitting it is modelled by passing `.vundefined` (both give 0 through
`Number(position) || 0`). -/
def TodoGroup.make (now : Nat) (seed : String) (name : JSVal) (position : JSVal)
    (idArg : Option String) : Except JSError TodoGroup :=
  match TodoGroup.validateName name with
  | some e => .error e
  | none =>
    match name with
    | .vstr s =>
      .ok { id := jsIdOr idArg (TodoGroup.generateId now seed)
            name := jsTrim s
            position := jsNumberOr0 position
            createdAt := now
            updatedAt := now }
    | _ => .error (.validation "Group name must be a non-empty string")

/-- `TodoGroup.prototype.updatePosition`: `Number(newPosition) || 0`, stamps
`updatedAt`. -/
def TodoGroup.updatePosition (g : TodoGroup) (newPosition : JSVal) (now : Nat) :
    TodoGroup :=
  { g with position := jsNumberOr0 newPosition, updatedAt := now }

/-- The plain-object shape produced by `TodoGroup.prototype.toJSON` and
consumed by `TodoGroup.fromJSON`. -/
structure GroupRecord where
  id : Option String
  name : JSVal
  position : JSVal
  createdAt : Nat
  updatedAt : Nat
deriving DecidableEq, Repr

/-- `TodoGroup.prototype.toJSON`. -/
def TodoGroup.toJSON (g : TodoGroup) : GroupRecord :=
  { id := some g.id
    name := .vstr g.name
    position := .vnum g.position
    createdAt := g.createdAt
    updatedAt := g.updatedAt }

/-- `TodoGroup.fromJSON`: the record is an object by construction, so the
non-object guard never fires; the constructor is called with name, position
and id only — the stored timestamps are NOT passed through, the constructor
stamps fresh ones. -/
def TodoGroup.fromJSON (d : GroupRecord) (now : Nat) (seed : String) :
    Except JSError TodoGroup :=
  TodoGroup.make now seed d.name d.position d.id

/-- `TodoItem` fields. `description` is never validated in the source and can
hold any value that survives `x || ''`, so it stays a `JSVal`. -/
structure TodoItem where
  id : String
  text : String
  groupId : String
  completed : Bool
  description : JSVal
  createdAt : Nat
  updatedAt : Nat
deriving DecidableEq, Repr

/-- `TodoItem.prototype.generateId`: `Date.now().toString(36) + random`; the
digit string of the timestamp (always non-empty) followed by entropy. -/
def TodoItem.generateId (now : Nat) (seed : String) : String :=
  Nat.repr now ++ seed

/-- `TodoItem.prototype.validateText` (cap 200). -/
def TodoItem.validateText (text : JSVal) : Option JSError :=
  match text with
  | .vstr s =>
    if s = "" then some (.validation "Todo text must be a non-empty string")
    else if jsTrim s = "" then
      some (.validation "Todo text cannot be empty or whitespace only")
    else if 200 < (jsTrim s).length then
      some (.validation "Todo text cannot exceed 200 characters")
    else none
  | _ => some (.validation "Todo text must be a non-empty string")

/-- `TodoItem.prototype.validateGroupId`: must be a non-empty string. -/
def TodoItem.validateGroupId (groupId : JSVal) : Option JSError :=
  match groupId with
  | .vstr s =>
    if s = "" then some (.validation "Group ID must be a non-empty string") else none
  | _ => some (.validation "Group ID must be a non-empty string")

/-- The `TodoItem` constructor: validates text then groupId, trims the text,
coerces `completed` with `Boolean(...)` (truthiness) and applies
`description || ''`. -/
def TodoItem.make (now : Nat) (seed : String) (text : JSVal) (groupId : JSVal)
    (completed : JSVal) (description : JSVal) (idArg : Option String) :
    Except JSError TodoItem :=
  match TodoItem.validateText text with
  | some e => .error e
  | none =>
    match TodoItem.validateGroupId groupId with
    | some e => .error e
    | none =>
      match text, groupId with
      | .vstr s, .vstr gid =>
        .ok { id := jsIdOr idArg (TodoItem.generateId now seed)
              text := jsTrim s
              groupId := gid
              completed := completed.truthy
              description := jsDescOr description
              createdAt := now
              updatedAt := now }
      | _, _ => .error (.validation "Todo text must be a non-empty string")

/-- `TodoItem.prototype.toggleCompletion`: flips `completed`, stamps
`updatedAt`. -/
def TodoItem.toggleCompletion (t : TodoItem) (now : Nat) : TodoItem :=
  { t with completed := !t.completed, updatedAt := now }

/-- The plain-object shape produced by `TodoItem.prototype.toJSON` and consumed
by `TodoItem.fromJSON`. -/
structure TodoRecord where
  id : Option String
  text : JSVal
  groupId : JSVal
  completed : JSVal
  description : JSVal
  createdAt : Nat
  updatedAt : Nat
deriving DecidableEq, Repr

/-- `TodoItem.prototype.toJSON`. -/
def TodoItem.toJSON (t : TodoItem) : TodoRecord :=
  { id := some t.id
    text := .vstr t.text
    groupId := .vstr t.groupId
    completed := .vbool t.completed
    description := t.description
    createdAt := t.createdAt
    updatedAt := t.updatedAt }

/-- `TodoItem.fromJSON`: calls the constructor with
`(data.text, data.groupId, data.completed, data.description || '', data.id)`;
stored timestamps are NOT passed through. -/
def TodoItem.fromJSON (d : TodoRecord) (now : Nat) (seed : String) :
    Except JSError TodoItem :=
  TodoItem.make now seed d.text d.groupId d.completed (jsDescOr d.description) d.id

/-- `Array.prototype.findIndex`. -/
def findIndex (p : α → Bool) : List α → Option Nat
  | [] => none
  | x :: xs => if p x then some 0 else (findIndex p xs).map (· + 1)

/-- In-place mutation of the first element matched by `Array.prototype.find`. -/
def updateFirst (p : α → Bool) (f : α → α) : List α → List α
  | [] => []
  | x :: xs => if p x then f x :: xs else x :: updateFirst p f xs

/-- The `forEach((group, index) => group.updatePosition(index))` renumbering
loop of `removeGroup`, with `k` the index of the first element. -/
def renumberFrom (now : Nat) (k : Nat) : List TodoGroup → List TodoGroup
  | [] => []
  | g :: gs => TodoGroup.updatePosition g (.vnum (k : Int)) now :: renumberFrom now (k + 1) gs

/-- `TodoManager` in-memory state. -/
structure TodoManager where
  todos : List TodoItem
  groups : List TodoGroup
  currentFilter : FilterMode
  isInitialized : Bool
deriving DecidableEq, Repr

/-- The `TodoManager` constructor. -/
def TodoManager.new : TodoManager :=
  { todos := [], groups := [], currentFilter := .active, isInitialized := false }

/-- `TodoManager.prototype.addGroup`. `position = null` (the default) is
modelled by `none` and becomes the current group count; the array is then
re-sorted by position with the stable `Array.prototype.sort` comparator
`(a, b) => a.position - b.position`, modelled by a stable insertion sort. -/
def TodoManager.addGroup (m : TodoManager) (name : JSVal) (position : Option JSVal)
    (now : Nat) (seed : String) :
    TodoManager × Except JSError TodoGroup × List Persist :=
  let newPosition : JSVal :=
    match position with
    | some p => p
    | none => .vnum (m.groups.length : Int)
  match TodoGroup.make now seed name newPosition none with
  | .error e => (m, .error e, [])
  | .ok g =>
    let gs := (m.groups ++ [g]).insertionSort (fun a b => a.position ≤ b.position)
    ({ m with groups := gs }, .ok g, [.groups])

/-- `TodoManager.prototype.removeGroup`: `false` and no mutation when the id is
unknown; otherwise filter out the todos of the group, splice the group out,
renumber the remaining groups by their current array index, save both
collections and return `true`. -/
def TodoManager.removeGroup (m : TodoManager) (groupId : String) (now : Nat) :
    TodoManager × Bool × List Persist :=
  match findIndex (fun g => g.id == groupId) m.groups with
  | none => (m, false, [])
  | some i =>
    let todos := m.todos.filter (fun t => t.groupId ≠ groupId)
    let gs := renumberFrom now 0 (m.groups.eraseIdx i)
    ({ m with todos := todos, groups := gs }, true, [.groups, .todos])

/-- `TodoManager.prototype.addTodo`. The log line
`text.substring(0, 50) + '...'` runs before anything else, so a non-string
`text` raises a TypeError which the catch block wraps into a `StorageError`;
only then is the group looked up and the item constructed. -/
def TodoManager.addTodo (m : TodoManager) (text : JSVal) (groupId : String)
    (now : Nat) (seed : String) :
    TodoManager × Except JSError TodoItem × List Persist :=
  match text with
  | .vstr s =>
    if m.groups.any (fun g => g.id == groupId) then
      match TodoItem.make now seed (.vstr s) (.vstr groupId) (.vbool false) (.vstr "") none with
      | .error e => (m, .error e, [])
      | .ok t => ({ m with todos := m.todos ++ [t] }, .ok t, [.todos])
    else (m, .error (.validation "Group not found"), [])
  | _ => (m, .error (.storage "Failed to add todo item"), [])

/-- `TodoManager.prototype.moveTodo`: unknown target group or unknown todo give
`false`; a todo already in the target group gives `true` with no mutation and
no save; otherwise the first matching todo gets the new groupId and a fresh
`updatedAt`, and todos are saved. -/
def TodoManager.moveTodo (m : TodoManager) (todoId : String) (newGroupId : String)
    (now : Nat) : TodoManager × Bool × List Persist :=
  if m.groups.any (fun g => g.id == newGroupId) then
    match m.todos.find? (fun t => t.id == todoId) with
    | none => (m, false, [])
    | some t =>
      if t.groupId == newGroupId then (m, true, [])
      else
        ({ m with
            todos := updateFirst (fun td => td.id == todoId)
              (fun td => { td with groupId := newGroupId, updatedAt := now }) m.todos },
          true, [.todos])
  else (m, false, [])

/-- `TodoManager.prototype.toggleTodo`. -/
def TodoManager.toggleTodo (m : TodoManager) (id : String) (now : Nat) :
    TodoManager × Bool × List Persist :=
  match m.todos.find? (fun t => t.id == id) with
  | none => (m, false, [])
  | some _ =>
    ({ m with
        todos := updateFirst (fun t => t.id == id)
          (fun t => TodoItem.toggleCompletion t now) m.todos },
      true, [.todos])

/-- `TodoManager.prototype.clearCompleted`: count the completed todos, keep the
rest, save, return the count. -/
def TodoManager.clearCompleted (m : TodoManager) :
    TodoManager × Nat × List Persist :=
  let n := (m.todos.filter (fun t => t.completed)).length
  ({ m with todos := m.todos.filter (fun t => !t.completed) }, n, [.todos])

/-- `TodoManager.prototype.loadGroups`: deserialize each stored record, drop
the ones that fail (best-effort load). -/
def TodoManager.loadGroups (stored : List GroupRecord) (now : Nat) (seed : String) :
    List TodoGroup :=
  (stored.map (fun d => (TodoGroup.fromJSON d now seed).toOption)).reduceOption

/-- `TodoManager.prototype.loadTodos`, same best-effort policy. -/
def TodoManager.loadTodos (stored : List TodoRecord) (now : Nat) (seed : String) :
    List TodoItem :=
  (stored.map (fun d => (TodoItem.fromJSON d now seed).toOption)).reduceOption

/-- `TodoManager.prototype.initialize`: load both collections, create the
default group `'To Do'` via `addGroup` when no groups resulted, set
`isInitialized`. -/
def TodoManager.initialize (storedGroups : List GroupRecord)
    (storedTodos : List TodoRecord) (now : Nat) (seed : String) : TodoManager :=
  let m1 := { TodoManager.new with
                groups := TodoManager.loadGroups storedGroups now seed
                todos := TodoManager.loadTodos storedTodos now seed }
  let m2 := if m1.groups.isEmpty then (m1.addGroup (.vstr "To Do") none now seed).1 else m1
  { m2 with isInitialized := true }

/-! Helper lemmas. -/

theorem dropWhile_head_false {p : α → Bool} {l : List α} {a : α} {t : List α}
    (h : l.dropWhile p = a :: t) : p a = false := by
  induction l with
  | nil => simp at h
  | cons x xs ih =>
    rw [List.dropWhile_cons] at h
    by_cases hx : p x
    · exact ih (by simpa [hx] using h)
    · obtain ⟨rfl, -⟩ : x = a ∧ xs = t := by simpa [hx] using h
      simpa using hx

theorem dropWhile_dropWhile (p : α → Bool) (l : List α) :
    (l.dropWhile p).dropWhile p = l.dropWhile p := by
  cases h : l.dropWhile p with
  | nil => rfl
  | cons a t =>
    rw [List.dropWhile_cons, dropWhile_head_false h]
    simp

theorem dropWhile_append_singleton {p : α → Bool} {a : α} (h : p a = false)
    (l : List α) : (l ++ [a]).dropWhile p = l.dropWhile p ++ [a] := by
  induction l with
  | nil => simp [List.dropWhile, h]
  | cons x xs ih =>
    by_cases hx : p x <;> simp [List.dropWhile_cons, hx, ih]

theorem trim_list_idem (p : α → Bool) (l : List α) :
    ((((((l.dropWhile p).reverse.dropWhile p).reverse).dropWhile p).reverse.dropWhile p).reverse)
      = ((l.dropWhile p).reverse.dropWhile p).reverse := by
  cases hd : l.dropWhile p with
  | nil => simp
  | cons a t =>
    have ha : p a = false := dropWhile_head_false hd
    simp only [List.reverse_cons]
    rw [dropWhile_append_singleton ha, List.reverse_append]
    simp only [List.reverse_cons, List.reverse_nil, List.nil_append,
      List.singleton_append]
    rw [List.dropWhile_cons]
    simp only [ha, Bool.false_eq_true, if_false, List.reverse_cons,
      List.reverse_reverse]
    rw [dropWhile_append_singleton ha, dropWhile_dropWhile, List.reverse_append]
    simp

/-- Trimming is idempotent. -/
theorem jsTrim_jsTrim (s : String) : jsTrim (jsTrim s) = jsTrim s :=
  congrArg String.mk (trim_list_idem Char.isWhitespace s.data)

theorem jsDescOr_jsDescOr (v : JSVal) : jsDescOr (jsDescOr v) = jsDescOr v := by
  cases v with
  | vstr s =>
    by_cases hs : s = ""
    · simp [jsDescOr, JSVal.truthy, hs]
    · simp [jsDescOr, JSVal.truthy, hs]
  | vnum n => by_cases hn : n = 0 <;> simp [jsDescOr, JSVal.truthy, hn]
  | vbool b => cases b <;> simp [jsDescOr, JSVal.truthy]
  | vnull => simp [jsDescOr, JSVal.truthy]
  | vundefined => simp [jsDescOr, JSVal.truthy]

theorem toDigitsCore_len_le (b : Nat) :
    ∀ (f n : Nat) (l : List Char), l.length ≤ (Nat.toDigitsCore b f n l).length := by
  intro f
  induction f with
  | zero => intro n l; simp [Nat.toDigitsCore]
  | succ f ih =>
    intro n l
    simp only [Nat.toDigitsCore]
    by_cases h : n / b = 0
    · simp [h]
    · simp only [h, if_false]
      exact le_trans (by simp) (ih (n / b) (Nat.digitChar (n % b) :: l))

theorem toDigits_len_pos (b n : Nat) : 0 < (Nat.toDigits b n).length := by
  unfold Nat.toDigits
  simp only [Nat.toDigitsCore]
  by_cases h : n / b = 0
  · simp [h]
  · simp only [h, if_false]
    exact lt_of_lt_of_le (by simp) (toDigitsCore_len_le b n (n / b) [Nat.digitChar (n % b)])

/-- The decimal digit string of a natural number is never empty. -/
theorem natRepr_ne_empty (n : Nat) : Nat.repr n ≠ "" := by
  intro h
  have hl := congrArg String.length h
  rw [Nat.repr] at hl
  simp only [List.length_asString, String.length_empty] at hl
  have hp := toDigits_len_pos 10 n
  omega

theorem groupGenerateId_ne_empty (now : Nat) (seed : String) :
    TodoGroup.generateId now seed ≠ "" := by
  unfold TodoGroup.generateId
  intro h
  have hlen := congrArg String.length h
  simp only [String.length_append, String.length_empty] at hlen
  have h6 : "group_".length = 6 := rfl
  omega

theorem itemGenerateId_ne_empty (now : Nat) (seed : String) :
    TodoItem.generateId now seed ≠ "" := by
  unfold TodoItem.generateId
  intro h
  have hlen := congrArg String.length h
  simp only [String.length_append, String.length_empty] at hlen
  have hr : 0 < (Nat.repr now).length := by
    rw [Nat.repr]
    simp only [List.length_asString]
    exact toDigits_len_pos 10 now
  omega

theorem jsIdOr_ne_empty {idArg : Option String} {gen : String} (h : gen ≠ "") :
    jsIdOr idArg gen ≠ "" := by
  unfold jsIdOr
  match idArg with
  | none => exact h
  | some s =>
    by_cases hs : s = "" <;> simp [hs, h]

theorem jsNumberOr0_vnum (n : Int) : jsNumberOr0 (.vnum n) = n := rfl

/-- Shape facts established by a successful `TodoGroup.make`. -/
theorem groupMake_ok_shape {now : Nat} {seed : String} {name position : JSVal}
    {idArg : Option String} {g : TodoGroup}
    (h : TodoGroup.make now seed name position idArg = .ok g) :
    g.name = jsTrim g.name ∧ g.name ≠ "" ∧ g.name.length ≤ 50 ∧ g.id ≠ "" ∧
    g.createdAt = now ∧ g.updatedAt = now := by
  unfold TodoGroup.make at h
  cases name with
  | vstr s =>
    simp only [TodoGroup.validateName] at h
    by_cases h1 : s = ""
    · simp [h1] at h
    by_cases h2 : jsTrim s = ""
    · simp [h1, h2] at h
    by_cases h3 : 50 < (jsTrim s).length
    · simp [h1, h2, h3] at h
    simp only [h1, h2, h3, if_false, if_neg] at h
    obtain rfl : _ = g := Except.ok.inj h
    refine ⟨(jsTrim_jsTrim s).symm, h2, ?_, ?_, rfl, rfl⟩
    · show (jsTrim s).length ≤ 50
      omega
    · exact jsIdOr_ne_empty (groupGenerateId_ne_empty now seed)
  | vnum n => simp [TodoGroup.validateName] at h
  | vbool b => simp [TodoGroup.validateName] at h
  | vnull => simp [TodoGroup.validateName] at h
  | vundefined => simp [TodoGroup.validateName] at h

/-- Shape facts established by a successful `TodoItem.make`. -/
theorem itemMake_ok_shape {now : Nat} {seed : String}
    {text groupId completed description : JSVal} {idArg : Option String} {t : TodoItem}
    (h : TodoItem.make now seed text groupId completed description idArg = .ok t) :
    t.text = jsTrim t.text ∧ t.text ≠ "" ∧ t.text.length ≤ 200 ∧ t.groupId ≠ "" ∧
    t.id ≠ "" ∧ t.description = jsDescOr t.description ∧
    t.createdAt = now ∧ t.updatedAt = now := by
  unfold TodoItem.make at h
  cases text with
  | vstr s =>
    cases groupId with
    | vstr gid =>
      simp only [TodoItem.validateText, TodoItem.validateGroupId] at h
      by_cases h1 : s = ""
      · simp [h1] at h
      by_cases h2 : jsTrim s = ""
      · simp [h1, h2] at h
      by_cases h3 : 200 < (jsTrim s).length
      · simp [h1, h2, h3] at h
      by_cases h4 : gid = ""
      · simp [h1, h2, h3, h4] at h
      simp only [h1, h2, h3, h4, if_false, if_neg] at h
      obtain rfl : _ = t := Except.ok.inj h
      refine ⟨(jsTrim_jsTrim s).symm, h2, ?_, h4, ?_,
        (jsDescOr_jsDescOr description).symm, rfl, rfl⟩
      · show (jsTrim s).length ≤ 200
        omega
      · exact jsIdOr_ne_empty (itemGenerateId_ne_empty now seed)
    | vnum n =>
      by_cases h1 : s = "" <;> by_cases h2 : jsTrim s = "" <;>
        by_cases h3 : 200 < (jsTrim s).length <;>
        simp [TodoItem.validateText, TodoItem.validateGroupId, h1, h2, h3] at h
    | vbool b =>
      by_cases h1 : s = "" <;> by_cases h2 : jsTrim s = "" <;>
        by_cases h3 : 200 < (jsTrim s).length <;>
        simp [TodoItem.validateText, TodoItem.validateGroupId, h1, h2, h3] at h
    | vnull =>
      by_cases h1 : s = "" <;> by_cases h2 : jsTrim s = "" <;>
        by_cases h3 : 200 < (jsTrim s).length <;>
        simp [TodoItem.validateText, TodoItem.validateGroupId, h1, h2, h3] at h
    | vundefined =>
      by_cases h1 : s = "" <;> by_cases h2 : jsTrim s = "" <;>
        by_cases h3 : 200 < (jsTrim s).length <;>
        simp [TodoItem.validateText, TodoItem.validateGroupId, h1, h2, h3] at h
  | vnum n => simp [TodoItem.validateText] at h
  | vbool b => simp [TodoItem.validateText] at h
  | vnull => simp [TodoItem.validateText] at h
  | vundefined => simp [TodoItem.validateText] at h

/-- Deserializing a serialized well-formed group: name, position and id come
back unchanged, while the constructor stamps fresh timestamps. -/
theorem groupRoundtrip {g : TodoGroup}
    (h1 : g.name = jsTrim g.name) (h2 : g.name ≠ "") (h3 : g.name.length ≤ 50)
    (h4 : g.id ≠ "") (now1 : Nat) (seed1 : String) :
    TodoGroup.fromJSON (TodoGroup.toJSON g) now1 seed1
      = .ok { g with createdAt := now1, updatedAt := now1 } := by
  obtain ⟨gid, gname, gpos, gc, gu⟩ := g
  simp only at h1 h2 h3 h4
  unfold TodoGroup.fromJSON TodoGroup.toJSON TodoGroup.make TodoGroup.validateName
  dsimp only
  rw [← h1]
  simp [h2, Nat.not_lt.mpr h3, jsIdOr, h4, jsNumberOr0_vnum]

/-- Deserializing a serialized well-formed todo item: every field except the
freshly stamped timestamps comes back unchanged. -/
theorem itemRoundtrip {t : TodoItem}
    (h1 : t.text = jsTrim t.text) (h2 : t.text ≠ "") (h3 : t.text.length ≤ 200)
    (h4 : t.groupId ≠ "") (h5 : t.id ≠ "") (h6 : t.description = jsDescOr t.description)
    (now1 : Nat) (seed1 : String) :
    TodoItem.fromJSON (TodoItem.toJSON t) now1 seed1
      = .ok { t with createdAt := now1, updatedAt := now1 } := by
  obtain ⟨tid, ttext, tgid, tcomp, tdesc, tc, tu⟩ := t
  simp only at h1 h2 h3 h4 h5 h6
  unfold TodoItem.fromJSON TodoItem.toJSON TodoItem.make TodoItem.validateText
    TodoItem.validateGroupId
  dsimp only
  rw [← h1, ← h6, ← h6]
  simp [h2, Nat.not_lt.mpr h3, h4, h5, jsIdOr, JSVal.truthy]

/-- C1: for entities constructed from valid inputs, serialize-then-deserialize
reproduces id, name, position (and for todos: id, text, groupId, completed,
description) — but NOT createdAt/updatedAt: `fromJSON` does not pass the
stored timestamps to the constructor, which stamps the deserialization time.
This is the amended round-trip law. -/
theorem C1_serialize_roundtrip
    (gnow : Nat) (gseed : String) (gname gpos : JSVal) (gidArg : Option String)
    (g : TodoGroup) (hg : TodoGroup.make gnow gseed gname gpos gidArg = .ok g)
    (tnow : Nat) (tseed : String) (ttext tgid tcomp tdesc : JSVal)
    (tidArg : Option String)
    (t : TodoItem) (ht : TodoItem.make tnow tseed ttext tgid tcomp tdesc tidArg = .ok t)
    (now1 : Nat) (seed1 : String) (now2 : Nat) (seed2 : String) :
    TodoGroup.fromJSON (TodoGroup.toJSON g) now1 seed1
      = .ok { g with createdAt := now1, updatedAt := now1 } ∧
    TodoItem.fromJSON (TodoItem.toJSON t) now2 seed2
      = .ok { t with createdAt := now2, updatedAt := now2 } := by
  obtain ⟨hg1, hg2, hg3, hg4, -, -⟩ := groupMake_ok_shape hg
  obtain ⟨ht1, ht2, ht3, ht4, ht5, ht6, -, -⟩ := itemMake_ok_shape ht
  exact ⟨groupRoundtrip hg1 hg2 hg3 hg4 now1 seed1,
    itemRoundtrip ht1 ht2 ht3 ht4 ht5 ht6 now2 seed2⟩

/-- Concrete group used in the C1 witness. -/
def gW1 : TodoGroup :=
  { id := "group_0x", name := "A", position := 1, createdAt := 0, updatedAt := 0 }

/-- Concrete todo used in the C1 witness. -/
def tW1 : TodoItem :=
  { id := "0y", text := "hi", groupId := "g", completed := false,
    description := .vstr "", createdAt := 0, updatedAt := 0 }

/-- C1 witness: the round-trip theorem applied to concrete entities. -/
theorem C1_serialize_roundtrip_witness :
    TodoGroup.fromJSON (TodoGroup.toJSON gW1) 5 "z"
      = .ok { gW1 with createdAt := 5, updatedAt := 5 } ∧
    TodoItem.fromJSON (TodoItem.toJSON tW1) 6 "w"
      = .ok { tW1 with createdAt := 6, updatedAt := 6 } :=
  C1_serialize_roundtrip 0 "x" (.vstr "A") (.vnum 1) none gW1 (by rfl)
    0 "y" (.vstr "hi") (.vstr "g") (.vbool false) (.vstr "") none tW1 (by rfl)
    5 "z" 6 "w"

/-- C1 counterexample: the claim as stated requires ALL field values including
createdAt and updatedAt to be identical after serialize-then-deserialize. For
a group created at time 0 and deserialized at time 1, both timestamps change
from 0 to 1, so the claim as stated is false. -/
theorem C1_counterexample :
    ((TodoGroup.make 0 "x" (.vstr "A") (.vnum 0) none).toOption.bind (fun g =>
      (TodoGroup.fromJSON (TodoGroup.toJSON g) 1 "x").toOption.map (fun g2 =>
        (g.createdAt, g2.createdAt, g.updatedAt, g2.updatedAt))))
      = some (0, 1, 0, 1) := by rfl

/-- C3: moving a todo to the group it is already in (the target group
existing) returns true, issues no persistence write, and leaves the whole
manager state — in particular the todo and its updatedAt — unchanged. -/
theorem C3_moveTodo_same_group_noop (m : TodoManager) (todoId newGroupId : String)
    (now : Nat) (t : TodoItem)
    (hg : m.groups.any (fun g => g.id == newGroupId) = true)
    (ht : m.todos.find? (fun td => td.id == todoId) = some t)
    (heq : t.groupId = newGroupId) :
    TodoManager.moveTodo m todoId newGroupId now = (m, true, []) := by
  unfold TodoManager.moveTodo
  rw [hg, ht]
  simp [heq]

/-- Concrete manager for the C3 witness: one group, one todo in it. -/
def mC3 : TodoManager :=
  { todos := [{ id := "t1", text := "a", groupId := "g1", completed := false,
                description := .vstr "", createdAt := 0, updatedAt := 0 }],
    groups := [{ id := "g1", name := "G", position := 0, createdAt := 0, updatedAt := 0 }],
    currentFilter := .active, isInitialized := true }

/-- C3 witness: the no-op move theorem applied at a concrete state. -/
theorem C3_moveTodo_same_group_noop_witness :
    TodoManager.moveTodo mC3 "t1" "g1" 9 = (mC3, true, []) :=
  C3_moveTodo_same_group_noop mC3 "t1" "g1" 9
    { id := "t1", text := "a", groupId := "g1", completed := false,
      description := .vstr "", createdAt := 0, updatedAt := 0 }
    (by rfl) (by rfl) (by rfl)

/-- C6: clearCompleted removes exactly the completed todos (the remaining list
is the filter of the non-completed ones, in place), returns the number of
completed todos, persists the todos, and a second consecutive call returns
0. -/
theorem C6_clearCompleted (m : TodoManager) :
    (TodoManager.clearCompleted m).2.1
      = (m.todos.filter (fun t => t.completed)).length ∧
    (TodoManager.clearCompleted m).1.todos
      = m.todos.filter (fun t => !t.completed) ∧
    (TodoManager.clearCompleted m).2.2 = [.todos] ∧
    (TodoManager.clearCompleted (TodoManager.clearCompleted m).1).2.1 = 0 := by
  refine ⟨rfl, rfl, rfl, ?_⟩
  unfold TodoManager.clearCompleted
  dsimp only
  have key : ∀ l : List TodoItem,
      ((l.filter (fun t => !t.completed)).filter (fun t => t.completed)).length = 0 := by
    intro l
    induction l with
    | nil => rfl
    | cons x xs ih =>
      by_cases hx : x.completed <;> simp [List.filter_cons, hx, ih]
  exact key m.todos

/-- C8: initializing from empty storage creates exactly one group, named
'To Do', with position 0. -/
theorem C8_initialize_default_group (now : Nat) (seed : String) :
    ( TodoManager.initialize [] [] now seed).groups.map (fun g => (g.name, g.position))
      = [("To Do", (0 : Int))] := by
  have hval : TodoGroup.validateName (.vstr "To Do") = none := rfl
  have htrim : jsTrim "To Do" = "To Do" := rfl
  unfold TodoManager.initialize TodoManager.loadGroups TodoManager.loadTodos
    TodoManager.addGroup TodoGroup.make
  rw [hval]
  simp [htrim, List.insertionSort, List.orderedInsert, jsNumberOr0_vnum]

theorem find?_updateFirst {p : α → Bool} {f : α → α} {l : List α} {t : α}
    (h : l.find? p = some t) (hf : p (f t) = true) :
    (updateFirst p f l).find? p = some (f t) := by
  induction l with
  | nil => simp at h
  | cons x xs ih =>
    by_cases hx : p x
    · rw [List.find?_cons_of_pos _ hx] at h
      obtain rfl := Option.some.inj h
      simp [updateFirst, hx, List.find?_cons_of_pos _ hf]
    · rw [List.find?_cons_of_neg _ hx] at h
      simp only [updateFirst, hx, Bool.false_eq_true, if_false]
      rw [List.find?_cons_of_neg _ hx]
      exact ih h

/-- `toggleTodo` on a present id: flips that todo in place and saves. -/
theorem toggleTodo_found (m : TodoManager) (id : String) (now : Nat) (t : TodoItem)
    (ht : m.todos.find? (fun td => td.id == id) = some t) :
    TodoManager.toggleTodo m id now
      = ({ m with todos := updateFirst (fun td => td.id == id)
                             (fun td => TodoItem.toggleCompletion td now) m.todos },
          true, [.todos]) := by
  unfold TodoManager.toggleTodo
  rw [ht]

/-- C7: for a todo present in the collection, two toggles (at times different
from the creation time) each return true, each stamp updatedAt with the toggle
time (hence different from createdAt), and the completed flag returns to its
original value after the second toggle while createdAt is preserved. -/
theorem C7_toggle_twice (m : TodoManager) (id : String) (t : TodoItem) (n1 n2 : Nat)
    (ht : m.todos.find? (fun td => td.id == id) = some t)
    (h1 : n1 ≠ t.createdAt) (h2 : n2 ≠ t.createdAt) :
    (TodoManager.toggleTodo m id n1).2.1 = true ∧
    ((TodoManager.toggleTodo m id n1).1.todos.find? (fun td => td.id == id)
      = some { t with completed := !t.completed, updatedAt := n1 }) ∧
    (TodoManager.toggleTodo (TodoManager.toggleTodo m id n1).1 id n2).2.1 = true ∧
    ((TodoManager.toggleTodo (TodoManager.toggleTodo m id n1).1 id n2).1.todos.find?
        (fun td => td.id == id)
      = some { t with completed := t.completed, updatedAt := n2 }) ∧
    ({ t with completed := !t.completed, updatedAt := n1 }).updatedAt
      ≠ ({ t with completed := !t.completed, updatedAt := n1 }).createdAt ∧
    ({ t with completed := t.completed, updatedAt := n2 }).updatedAt
      ≠ ({ t with completed := t.completed, updatedAt := n2 }).createdAt := by
  have hpt := List.find?_some ht
  have hfind1 : (updateFirst (fun td => td.id == id)
        (fun td => TodoItem.toggleCompletion td n1) m.todos).find? (fun td => td.id == id)
      = some (TodoItem.toggleCompletion t n1) :=
    find?_updateFirst ht hpt
  have hfind2 : (updateFirst (fun td => td.id == id)
        (fun td => TodoItem.toggleCompletion td n2)
        (updateFirst (fun td => td.id == id)
          (fun td => TodoItem.toggleCompletion td n1) m.todos)).find?
        (fun td => td.id == id)
      = some (TodoItem.toggleCompletion (TodoItem.toggleCompletion t n1) n2) :=
    find?_updateFirst hfind1 hpt
  have hrec : TodoItem.toggleCompletion (TodoItem.toggleCompletion t n1) n2
      = { t with completed := t.completed, updatedAt := n2 } := by
    obtain ⟨tid, ttext, tgid, tcomp, tdesc, tc, tu⟩ := t
    simp [TodoItem.toggleCompletion, Bool.not_not]
  rw [toggleTodo_found m id n1 t ht]
  dsimp only
  rw [toggleTodo_found _ id n2 _ hfind1]
  dsimp only
  refine ⟨rfl, hfind1, rfl, ?_, by simpa using h1, by simpa using h2⟩
  rw [hfind2, hrec]

/-- Concrete manager for the C7 witness: one group, one todo created at
time 0. -/
def mC7 : TodoManager :=
  { todos := [{ id := "t1", text := "a", groupId := "g1", completed := false,
                description := .vstr "", createdAt := 0, updatedAt := 0 }],
    groups := [{ id := "g1", name := "G", position := 0, createdAt := 0, updatedAt := 0 }],
    currentFilter := .active, isInitialized := true }

/-- C7 witness: two toggles at times 5 and 6 on the concrete state. -/
theorem C7_toggle_twice_witness :
    (TodoManager.toggleTodo mC7 "t1" 5).2.1 = true ∧
    ((TodoManager.toggleTodo mC7 "t1" 5).1.todos.find? (fun td => td.id == "t1")
      = some { id := "t1", text := "a", groupId := "g1", completed := true,
               description := .vstr "", createdAt := 0, updatedAt := 5 }) ∧
    (TodoManager.toggleTodo (TodoManager.toggleTodo mC7 "t1" 5).1 "t1" 6).2.1 = true ∧
    ((TodoManager.toggleTodo (TodoManager.toggleTodo mC7 "t1" 5).1 "t1" 6).1.todos.find?
        (fun td => td.id == "t1")
      = some { id := "t1", text := "a", groupId := "g1", completed := false,
               description := .vstr "", createdAt := 0, updatedAt := 6 }) ∧
    ((5 : Nat) ≠ 0) ∧ ((6 : Nat) ≠ 0) :=
  C7_toggle_twice mC7 "t1"
    { id := "t1", text := "a", groupId := "g1", completed := false,
      description := .vstr "", createdAt := 0, updatedAt := 0 }
    5 6 (by rfl) (by decide) (by decide)

/-- C5: addTodo with a string text. When the groupId matches no group it fails
with the ValidationError 'Group not found' and changes nothing; when the group
exists (group ids are non-empty by construction) and the text passes
validation, it appends a fresh todo carrying that groupId and returns it. -/
theorem C5_addTodo_group_check (m : TodoManager) (s : String) (groupId : String)
    (now : Nat) (seed : String) :
    (m.groups.any (fun g => g.id == groupId) = false →
      TodoManager.addTodo m (.vstr s) groupId now seed
        = (m, .error (.validation "Group not found"), [])) ∧
    (m.groups.any (fun g => g.id == groupId) = true → groupId ≠ "" →
      TodoItem.validateText (.vstr s) = none →
      ∃ t, TodoManager.addTodo m (.vstr s) groupId now seed
          = ({ m with todos := m.todos ++ [t] }, .ok t, [.todos]) ∧
        t.groupId = groupId ∧ t.text = jsTrim s ∧ t.completed = false) := by
  constructor
  · intro h
    unfold TodoManager.addTodo
    rw [h]
    simp
  · intro h hne hv
    have hgidv : TodoItem.validateGroupId (.vstr groupId) = none := by
      unfold TodoItem.validateGroupId
      dsimp only
      rw [if_neg hne]
    unfold TodoManager.addTodo
    rw [h]
    dsimp only
    unfold TodoItem.make
    rw [hv, hgidv]
    exact ⟨_, rfl, rfl, rfl, rfl⟩

/-- Concrete manager for the C5 witness (one group with id g1). -/
def mC5 : TodoManager :=
  { todos := [],
    groups := [{ id := "g1", name := "G", position := 0, createdAt := 0, updatedAt := 0 }],
    currentFilter := .active, isInitialized := true }

/-- C5 witness: the theorem applied at a present and at an absent group id. -/
theorem C5_addTodo_group_check_witness :
    (∃ t, TodoManager.addTodo mC5 (.vstr "hi") "g1" 3 "s"
        = ({ mC5 with todos := mC5.todos ++ [t] }, .ok t, [.todos]) ∧
      t.groupId = "g1" ∧ t.text = jsTrim "hi" ∧ t.completed = false) ∧
    TodoManager.addTodo mC5 (.vstr "hi") "nope" 3 "s"
      = (mC5, .error (.validation "Group not found"), []) :=
  ⟨(C5_addTodo_group_check mC5 "hi" "g1" 3 "s").2 (by rfl) (by decide) (by rfl),
    (C5_addTodo_group_check mC5 "hi" "nope" 3 "s").1 (by rfl)⟩

/-- C9: the position argument of the group constructor and of updatePosition is
coerced with Number(...) || 0 and never causes a failure: construction with a
valid name succeeds for EVERY position value, a NaN-coercing (non-numeric)
or omitted (undefined) position becomes 0, and updatePosition also stamps
updatedAt. -/
theorem C9_position_coercion (now now2 : Nat) (seed : String) (s : String) (pos : JSVal)
    (idArg : Option String) (g : TodoGroup)
    (hname : TodoGroup.validateName (.vstr s) = none) :
    (∃ g2, TodoGroup.make now seed (.vstr s) pos idArg = .ok g2 ∧
      g2.position = jsNumberOr0 pos) ∧
    (JSVal.toNumber pos = none →
      ∃ g2, TodoGroup.make now seed (.vstr s) pos idArg = .ok g2 ∧ g2.position = 0) ∧
    (∃ g2, TodoGroup.make now seed (.vstr s) .vundefined idArg = .ok g2 ∧
      g2.position = 0) ∧
    (TodoGroup.updatePosition g pos now2).position = jsNumberOr0 pos ∧
    (JSVal.toNumber pos = none → (TodoGroup.updatePosition g pos now2).position = 0) ∧
    (TodoGroup.updatePosition g pos now2).updatedAt = now2 := by
  have hmk : ∀ p : JSVal, TodoGroup.make now seed (.vstr s) p idArg
      = .ok { id := jsIdOr idArg (TodoGroup.generateId now seed), name := jsTrim s,
              position := jsNumberOr0 p, createdAt := now, updatedAt := now } := by
    intro p
    unfold TodoGroup.make
    rw [hname]
  have hnan : ∀ p : JSVal, JSVal.toNumber p = none → jsNumberOr0 p = 0 := by
    intro p hp
    unfold jsNumberOr0
    rw [hp]
    rfl
  refine ⟨⟨_, hmk pos, rfl⟩, ?_, ⟨_, hmk .vundefined, hnan .vundefined rfl⟩, rfl, ?_, rfl⟩
  · intro hp
    exact ⟨_, hmk pos, hnan pos hp⟩
  · intro hp
    show jsNumberOr0 pos = 0
    exact hnan pos hp

/-- C9 witness: a non-numeric string position coerces to 0, for both the
constructor and updatePosition, on concrete inputs. -/
theorem C9_position_coercion_witness :
    (∃ g2, TodoGroup.make 0 "x" (.vstr "A") (.vstr "abc") none = .ok g2 ∧
      g2.position = jsNumberOr0 (.vstr "abc")) ∧
    (JSVal.toNumber (.vstr "abc") = none →
      ∃ g2, TodoGroup.make 0 "x" (.vstr "A") (.vstr "abc") none = .ok g2 ∧
        g2.position = 0) ∧
    (∃ g2, TodoGroup.make 0 "x" (.vstr "A") .vundefined none = .ok g2 ∧
      g2.position = 0) ∧
    (TodoGroup.updatePosition gW1 (.vstr "abc") 4).position = jsNumberOr0 (.vstr "abc") ∧
    (JSVal.toNumber (.vstr "abc") = none →
      (TodoGroup.updatePosition gW1 (.vstr "abc") 4).position = 0) ∧
    (TodoGroup.updatePosition gW1 (.vstr "abc") 4).updatedAt = 4 :=
  C9_position_coercion 0 4 "x" "A" (.vstr "abc") none gW1 (by rfl)

/-- C10: a stored todo record whose text and groupId pass validation is
deserialized successfully regardless of its completed and description values:
completed is coerced by truthiness (undefined becomes false) and a falsy (in
particular missing) description becomes the empty string. -/
theorem C10_fromJSON_lenient (d : TodoRecord) (now : Nat) (seed : String)
    (hv : TodoItem.validateText d.text = none)
    (hg : TodoItem.validateGroupId d.groupId = none) :
    ∃ t, TodoItem.fromJSON d now seed = .ok t ∧
      t.completed = d.completed.truthy ∧
      (d.completed = .vundefined → t.completed = false) ∧
      (d.description.truthy = false → t.description = .vstr "") ∧
      (d.description = .vundefined → t.description = .vstr "") := by
  obtain ⟨s, hs⟩ : ∃ s, d.text = .vstr s := by
    cases hx : d.text <;> rw [hx] at hv <;>
      first
        | exact ⟨_, rfl⟩
        | simp [TodoItem.validateText] at hv
  obtain ⟨gid, hgid⟩ : ∃ gid, d.groupId = .vstr gid := by
    cases hx : d.groupId <;> rw [hx] at hg <;>
      first
        | exact ⟨_, rfl⟩
        | simp [TodoItem.validateGroupId] at hg
  rw [hs] at hv
  rw [hgid] at hg
  unfold TodoItem.fromJSON TodoItem.make
  rw [hs, hgid, hv, hg]
  refine ⟨_, rfl, rfl, ?_, ?_, ?_⟩
  · intro hc
    rw [hc]
    rfl
  · intro hd
    show jsDescOr (jsDescOr d.description) = .vstr ""
    unfold jsDescOr
    rw [hd]
    rfl
  · intro hd
    show jsDescOr (jsDescOr d.description) = .vstr ""
    rw [hd]
    rfl

/-- Concrete record for the C10 witness: completed and description missing
(undefined). -/
def dC10 : TodoRecord :=
  { id := some "i1", text := .vstr "x", groupId := .vstr "g1",
    completed := .vundefined, description := .vundefined,
    createdAt := 0, updatedAt := 0 }

/-- C10 witness: the lenient-deserialization theorem applied to a record with
undefined completed and description. -/
theorem C10_fromJSON_lenient_witness :
    ∃ t, TodoItem.fromJSON dC10 7 "s" = .ok t ∧
      t.completed = dC10.completed.truthy ∧
      (dC10.completed = .vundefined → t.completed = false) ∧
      (dC10.description.truthy = false → t.description = .vstr "") ∧
      (dC10.description = .vundefined → t.description = .vstr "") :=
  C10_fromJSON_lenient dC10 7 "s" (by rfl) (by rfl)

theorem renumberFrom_map_id (now k : Nat) (l : List TodoGroup) :
    (renumberFrom now k l).map (fun g => g.id) = l.map (fun g => g.id) := by
  induction l generalizing k with
  | nil => rfl
  | cons g gs ih => simp [renumberFrom, TodoGroup.updatePosition, ih]

theorem renumberFrom_map_position (now k : Nat) (l : List TodoGroup) :
    (renumberFrom now k l).map (fun g => g.position)
      = (List.range' k l.length).map (fun n => (n : Int)) := by
  induction l generalizing k with
  | nil => rfl
  | cons g gs ih =>
    rw [List.length_cons, List.range'_succ]
    simp only [renumberFrom, List.map_cons, ih]
    rfl

/-- C2 (amended): removeGroup of an unknown id returns false and changes
nothing; removeGroup of a present id deletes every todo of that group,
removes the group, renumbers the remaining groups to positions 0..n-1 in
their CURRENT ARRAY ORDER (stamping updatedAt), persists both collections and
returns true. When the groups array is sorted by position ascending — the
invariant addGroup and removeGroup themselves maintain — that array order is
exactly the order sorted by position, as claimed; the list of remaining
groups is then still pairwise sorted by the old positions. -/
theorem C2_removeGroup (m : TodoManager) (gid : String) (now : Nat)
    (hsorted : m.groups.Pairwise (fun a b => a.position ≤ b.position)) :
    (∀ i, findIndex (fun g => g.id == gid) m.groups = some i →
      TodoManager.removeGroup m gid now
        = ({ m with
              todos := m.todos.filter (fun t => t.groupId ≠ gid),
              groups := renumberFrom now 0 (m.groups.eraseIdx i) },
            true, [.groups, .todos]) ∧
      (renumberFrom now 0 (m.groups.eraseIdx i)).map (fun g => g.id)
        = (m.groups.eraseIdx i).map (fun g => g.id) ∧
      (renumberFrom now 0 (m.groups.eraseIdx i)).map (fun g => g.position)
        = (List.range (m.groups.eraseIdx i).length).map (fun n => (n : Int)) ∧
      (m.groups.eraseIdx i).Pairwise (fun a b => a.position ≤ b.position)) ∧
    (findIndex (fun g => g.id == gid) m.groups = none →
      TodoManager.removeGroup m gid now = (m, false, [])) := by
  constructor
  · intro i hi
    refine ⟨?_, renumberFrom_map_id now 0 _, ?_, ?_⟩
    · unfold TodoManager.removeGroup
      rw [hi]
    · rw [renumberFrom_map_position, List.range_eq_range']
    · exact List.Pairwise.sublist (List.eraseIdx_sublist m.groups i) hsorted
  · intro hnone
    unfold TodoManager.removeGroup
    rw [hnone]

/-- Concrete sorted manager for the C2 witness: groups a, b, c at positions
0, 1, 2, with one todo in b and one in c. -/
def mC2w : TodoManager :=
  { todos := [{ id := "t1", text := "x", groupId := "b", completed := false,
                description := .vstr "", createdAt := 0, updatedAt := 0 },
              { id := "t2", text := "y", groupId := "c", completed := false,
                description := .vstr "", createdAt := 0, updatedAt := 0 }],
    groups := [{ id := "a", name := "A", position := 0, createdAt := 0, updatedAt := 0 },
               { id := "b", name := "B", position := 1, createdAt := 0, updatedAt := 0 },
               { id := "c", name := "C", position := 2, createdAt := 0, updatedAt := 0 }],
    currentFilter := .active, isInitialized := true }

/-- C2 witness: removing group b from the sorted three-group state. -/
theorem C2_removeGroup_witness :
    mC2w.groups.Pairwise (fun a b => a.position ≤ b.position) ∧
    findIndex (fun g => g.id == "b") mC2w.groups = some 1 ∧
    (TodoManager.removeGroup mC2w "b" 7
        = ({ mC2w with
              todos := mC2w.todos.filter (fun t => t.groupId ≠ "b"),
              groups := renumberFrom 7 0 (mC2w.groups.eraseIdx 1) },
            true, [.groups, .todos]) ∧
      (renumberFrom 7 0 (mC2w.groups.eraseIdx 1)).map (fun g => g.id)
        = (mC2w.groups.eraseIdx 1).map (fun g => g.id) ∧
      (renumberFrom 7 0 (mC2w.groups.eraseIdx 1)).map (fun g => g.position)
        = (List.range (mC2w.groups.eraseIdx 1).length).map (fun n => (n : Int)) ∧
      (mC2w.groups.eraseIdx 1).Pairwise (fun a b => a.position ≤ b.position)) :=
  ⟨by decide, by rfl,
    (C2_removeGroup mC2w "b" 7 (by decide)).1 1 (by rfl)⟩

/-- State reachable from storage whose groups array is NOT sorted by position:
records a, b, c stored with positions 5, 1, 0 load in that array order. -/
def mC2x : TodoManager :=
  TodoManager.initialize
    [ { id := some "a", name := .vstr "A", position := .vnum 5, createdAt := 0, updatedAt := 0 },
      { id := some "b", name := .vstr "B", position := .vnum 1, createdAt := 0, updatedAt := 0 },
      { id := some "c", name := .vstr "C", position := .vnum 0, createdAt := 0, updatedAt := 0 } ]
    [] 0 "s"

/-- C2 counterexample: in the reachable state mC2x the groups array holds
a(pos 5), b(pos 1), c(pos 0) in that order. Removing a leaves b and c, whose
order sorted by position ascending is c (0) then b (1), so the claim requires
c to get position 0 and b position 1. The code renumbers by array index
instead: b gets 0 and c gets 1 — the claim as stated is false. -/
theorem C2_counterexample :
    mC2x.groups.map (fun g => (g.id, g.position))
      = [("a", (5 : Int)), ("b", 1), ("c", 0)] ∧
    (TodoManager.removeGroup mC2x "a" 9).1.groups.map (fun g => (g.id, g.position))
      = [("b", (0 : Int)), ("c", 1)] ∧
    ((1 : Int) ≠ 0) := by
  refine ⟨by rfl, by rfl, by decide⟩

/-- Freshly initialized manager (holds the default group, id group_0s). -/
def mC4 : TodoManager :=
  TodoManager.initialize [] [] 0 "s"

set_option maxRecDepth 8192 in
/-- C4: creation-path validation behaviour evaluated on concrete inputs.
Entity construction rejects a non-string, whitespace-only or over-cap
name/text with a ValidationError, and addGroup propagates the ValidationError
leaving the manager unchanged with no persistence write. For addTodo the
string cases behave the same way, but a NON-STRING text does NOT produce a
ValidationError: the log line text.substring(0, 50) runs first, its TypeError
is caught by the generic handler and rethrown as StorageError — the last
conjunct records this divergence from the claim (the collections are still
unchanged). -/
theorem C4_validation_behaviour :
    TodoGroup.make 0 "x" .vnull (.vnum 0) none
      = .error (.validation "Group name must be a non-empty string") ∧
    TodoGroup.make 0 "x" (.vstr "   ") (.vnum 0) none
      = .error (.validation "Group name cannot be empty or whitespace only") ∧
    TodoGroup.make 0 "x" (.vstr (String.mk (List.replicate 51 'a'))) (.vnum 0) none
      = .error (.validation "Group name cannot exceed 50 characters") ∧
    TodoItem.make 0 "x" (.vnum 7) (.vstr "g") (.vbool false) (.vstr "") none
      = .error (.validation "Todo text must be a non-empty string") ∧
    TodoItem.make 0 "x" (.vstr (String.mk (List.replicate 201 'a'))) (.vstr "g")
        (.vbool false) (.vstr "") none
      = .error (.validation "Todo text cannot exceed 200 characters") ∧
    TodoManager.addGroup mC4 (.vstr " ") none 1 "y"
      = (mC4, .error (.validation "Group name cannot be empty or whitespace only"), []) ∧
    TodoManager.addGroup mC4 .vundefined none 1 "y"
      = (mC4, .error (.validation "Group name must be a non-empty string"), []) ∧
    TodoManager.addTodo mC4 (.vstr "  ") "group_0s" 1 "y"
      = (mC4, .error (.validation "Todo text cannot be empty or whitespace only"), []) ∧
    TodoManager.addTodo mC4 (.vnum 42) "group_0s" 1 "y"
      = (mC4, .error (.storage "Failed to add todo item"), []) :=
  ⟨rfl, rfl, rfl, rfl, rfl, rfl, rfl, rfl, rfl⟩

end ChromeTodo
